import Mathlib

/-!
Shallow embedding of `src/main.py`, a Telegram chat bot that forwards user
messages to an OpenAI completion endpoint.  Pure data (prompt templates,
reply formats, the dispatch table of `main()`) is embedded as Lean constants
and functions; the effectful boundary (the OpenAI client call, the incoming
Telegram update) is abstracted into explicit parameters: the outcome of the
underlying completion call is a value of `APIResult`, the nondeterministic
`random.choice` is an index parameter, and a handler is a function from the
gateway (a `String → Nat → String` oracle) to the list of gateway calls it
makes plus the reply text it sends.
-/

namespace Bot

/-- Python truthiness of an optional environment-variable string:
`None` and the empty string are falsy (`if not BOT_TOKEN`, main.py line 34). -/
def envTruthy : Option String → Bool
  | none => false
  | some s => s ≠ ""

/-- Startup validation of the two required secrets (main.py lines 31-40):
`raise ValueError` is embedded as `Except.error` with the exception message. -/
def validateEnv (botToken openaiApiKey : Option String) : Except String Unit :=
  if !envTruthy botToken then .error "BOT_TOKEN is required"
  else if !envTruthy openaiApiKey then .error "OPENAI_API_KEY is required"
  else .ok ()

/-- The system prompt sent with every completion request (main.py lines 43-48). -/
def SYSTEM_PROMPT : String :=
  "You are a friendly, warm, and helpful AI concierge bot. " ++
  "Keep responses concise but heartfelt and engaging. " ++
  "Be supportive, encouraging, and personable in your interactions. " ++
  "Provide practical advice when asked and maintain a positive tone."

/-- One chat message of the outgoing completion request. -/
structure ChatMessage where
  role : String
  content : String
deriving DecidableEq

/-- The keyword arguments of `client.chat.completions.create`
(main.py lines 87-100).  The float sampling parameters are embedded as exact
rationals. -/
structure CompletionRequest where
  model : String
  messages : List ChatMessage
  maxTokens : Nat
  temperature : Rat
  topP : Rat
  frequencyPenalty : Rat
  presencePenalty : Rat
  timeoutSeconds : Nat
deriving DecidableEq

/-- The request built by `get_openai_response` for a given user prompt and
`max_tokens` cap (main.py lines 87-100): model "gpt-3.5-turbo",
temperature 0.7, top_p 1.0, frequency_penalty 0.0, presence_penalty 0.0,
timeout 30. -/
def buildRequest (prompt : String) (maxTokens : Nat) : CompletionRequest :=
  { model := "gpt-3.5-turbo"
    messages := [⟨"system", SYSTEM_PROMPT⟩, ⟨"user", prompt⟩]
    maxTokens := maxTokens
    temperature := 7 / 10
    topP := 1
    frequencyPenalty := 0
    presencePenalty := 0
    timeoutSeconds := 30 }

/-- Outcome of the underlying completion call.  `success cs` is a response
whose choice list carries the contents `cs` (`choices[i].message.content`);
`failure` is any raised exception (timeout, network error, malformed
response). -/
inductive APIResult where
  | success (choices : List String)
  | failure
deriving DecidableEq

/-- The three pre-written apology strings of the `except` branch
(main.py lines 109-113). -/
def error_messages : List String :=
  [ "Sorry, I'm having trouble connecting to my AI brain right now. Please try again later! 🤖",
    "Oops! My AI circuits are a bit tangled right now. Give me a moment and try again! ⚡",
    "My AI brain needs a quick reboot! Please try your request again in a moment. 🔄" ]

/-- Fallback reply when the OpenAI client failed to initialise
(main.py line 83). -/
def unavailable_message : String :=
  "Sorry, AI service is currently unavailable. Please try again later! 🤖"

/-- Fallback reply when the response carries an empty choice list
(main.py line 105). -/
def empty_choices_message : String :=
  "I'm having trouble generating a response right now. Please try again! 🤖"

/-- Every pre-written fallback string defined in the program. -/
def fallbackMessages : List String :=
  unavailable_message :: empty_choices_message :: error_messages

/-- The Completion Gateway, `get_openai_response` (main.py lines 80-115).
`clientOk` is whether the module-level OpenAI client initialised
(main.py lines 21-28); `result` is the outcome of the underlying call;
`randomIndex` resolves the nondeterminism of `random.choice` (the chosen
element is `error_messages[randomIndex % len(error_messages)]`). -/
def get_openai_response (clientOk : Bool) (result : APIResult)
    (randomIndex : Nat) : String :=
  if !clientOk then unavailable_message
  else
    match result with
    | .success (c :: _) => c.trim
    | .success [] => empty_choices_message
    | .failure => error_messages.getD (randomIndex % error_messages.length) ""

/-- What a handler did with one update: the `(prompt, max_tokens)` arguments
of each `get_openai_response` call it made, and the text it replied with. -/
structure HandlerOutput where
  gatewayCalls : List (String × Nat)
  reply : String
deriving DecidableEq

/-- The welcome text of the `/start` handler (main.py lines 52-62). -/
def welcome_message : String :=
  "🤖 Welcome! I'm your friendly AI concierge bot.\n\n" ++
  "Here's what I can help you with:\n" ++
  "• /help - Show all available commands\n" ++
  "• /love - Get today's love quote\n" ++
  "• /poetry - Receive a romantic quote\n" ++
  "• /song - Get a song suggestion\n" ++
  "• /advice - Daily helpful tip\n" ++
  "• /mood - Quick mood check-in\n\n" ++
  "You can also just chat with me naturally!"

/-- The `/start` handler (main.py lines 50-63): static reply, no gateway call. -/
def start : HandlerOutput :=
  { gatewayCalls := [], reply := welcome_message }

/-- The help text of the `/help` handler (main.py lines 67-77). -/
def help_text : String :=
  "🆘 **Available Commands:**\n\n" ++
  "🌟 /start - Welcome message and intro\n" ++
  "❓ /help - Show this help message\n" ++
  "💕 /love - Today's love quote via AI\n" ++
  "🎭 /poetry - Short romantic quote\n" ++
  "🎵 /song - Song recommendation\n" ++
  "💡 /advice - Daily helpful tip\n" ++
  "😊 /mood - Simple mood check-in\n\n" ++
  "💬 You can also send me any message and I'll respond as your friendly AI concierge!"

/-- The `/help` handler (main.py lines 65-78): static reply, no gateway call. -/
def help_command : HandlerOutput :=
  { gatewayCalls := [], reply := help_text }

/-- The love-quote prompt template (main.py line 119). -/
def love_prompt : String :=
  "Generate a beautiful, inspiring love quote for today. Make it heartwarming, meaningful, and uplifting."

/-- The `/love` handler (main.py lines 117-124): one gateway call with the
love-quote template at the default `max_tokens=150`, reply wrapped in the
fixed decorative format. -/
def love_quote (gw : String → Nat → String) : HandlerOutput :=
  { gatewayCalls := [(love_prompt, 150)]
    reply := "💕 **Today's Love Quote:**\n\n" ++ gw love_prompt 150 ++
      "\n\n✨ _Spread love wherever you go!_" }

/-- The poetry prompt template (main.py line 128). -/
def poetry_prompt : String :=
  "Create a short, beautiful romantic quote or line of poetry. Keep it elegant, touching, and memorable."

/-- The `/poetry` handler (main.py lines 126-133). -/
def poetry_quote (gw : String → Nat → String) : HandlerOutput :=
  { gatewayCalls := [(poetry_prompt, 150)]
    reply := "🎭 **Romantic Quote:**\n\n_" ++ gw poetry_prompt 150 ++
      "_\n\n💝 _For the romantic soul_" }

/-- The song prompt template (main.py line 137). -/
def song_prompt : String :=
  "Suggest a great song (artist and title) with a brief reason why it's worth listening to. Make it uplifting, meaningful, or emotionally resonant."

/-- The `/song` handler (main.py lines 135-142). -/
def song_suggestion (gw : String → Nat → String) : HandlerOutput :=
  { gatewayCalls := [(song_prompt, 150)]
    reply := "🎵 **Song Suggestion:**\n\n" ++ gw song_prompt 150 ++
      "\n\n🎶 _Enjoy the music!_" }

/-- The advice prompt template (main.py line 146). -/
def advice_prompt : String :=
  "Share a practical, positive daily life tip or advice. Make it actionable, encouraging, and genuinely helpful for personal growth."

/-- The `/advice` handler (main.py lines 144-151). -/
def daily_advice (gw : String → Nat → String) : HandlerOutput :=
  { gatewayCalls := [(advice_prompt, 150)]
    reply := "💡 **Daily Advice:**\n\n" ++ gw advice_prompt 150 ++
      "\n\n🌟 _You've got this!_" }

/-- The mood check-in text (main.py lines 155-164). -/
def mood_message : String :=
  "😊 **Mood Check-in**\n\n" ++
  "How are you feeling today?\n\n" ++
  "Remember:\n" ++
  "• It's okay to have ups and downs\n" ++
  "• Every day is a fresh start\n" ++
  "• You're doing better than you think!\n" ++
  "• Small steps lead to big changes\n\n" ++
  "💪 Tell me what's on your mind, I'm here to listen and help!"

/-- The `/mood` handler (main.py lines 153-165): static reply, no gateway call. -/
def mood_checkin : HandlerOutput :=
  { gatewayCalls := [], reply := mood_message }

/-- The sender name used by the free-text handler: `first_name or "friend"`
(main.py line 173), where Python `or` replaces both a missing and an empty
first name. -/
def userName (firstName : Option String) : String :=
  match firstName with
  | none => "friend"
  | some s => if s = "" then "friend" else s

/-- The contextual prompt of the free-text handler (main.py lines 176-181),
the f-string written out as concatenation. -/
def handle_message_prompt (user_name user_message : String) : String :=
  "As a friendly AI concierge, respond warmly to this message from " ++ user_name ++
  ": '" ++ user_message ++ "'. " ++
  "Be helpful, encouraging, personable, and provide practical value when possible. " ++
  "If they're asking for help or advice, provide actionable suggestions. " ++
  "If they're sharing something, respond empathetically and engagingly."

/-- The free-text handler `handle_message` (main.py lines 167-184).
`messageText` is `update.message.text` (`none` when the update has no
message); a missing or empty text returns without reply (line 169-170).
One gateway call at `max_tokens=200`; the reply prefixes the robot emoji. -/
def handle_message (gw : String → Nat → String) (messageText : Option String)
    (firstName : Option String) : Option HandlerOutput :=
  match messageText with
  | none => none
  | some t =>
    if t = "" then none
    else
      some { gatewayCalls := [(handle_message_prompt (userName firstName) t, 200)],
             reply := "🤖 " ++ gw (handle_message_prompt (userName firstName) t) 200 }

/-- The handlers registered in `main()` (main.py lines 212-222). -/
inductive Handler where
  | startH | helpH | loveH | poetryH | songH | adviceH | moodH | freeText
deriving DecidableEq

/-- The command word of a message: when the text starts with a slash, the
characters up to the first space (how `CommandHandler` matches the
`/command` keyword at offset 0). -/
def commandWord (text : String) : Option (List Char) :=
  match text.data with
  | [] => none
  | c :: _ => if c = '/' then some (text.data.takeWhile (fun ch => ch ≠ ' ')) else none

/-- The Command Router: the dispatch table registered in `main()`
(main.py lines 212-222).  A known command keyword selects its handler; an
unknown command matches no handler (`filters.TEXT & ~filters.COMMAND`
excludes commands from `handle_message`); any other non-empty text falls
through to the free-text handler. -/
def route (text : String) : Option Handler :=
  match commandWord text with
  | some w =>
    if w = "/start".data then some .startH
    else if w = "/help".data then some .helpH
    else if w = "/love".data then some .loveH
    else if w = "/poetry".data then some .poetryH
    else if w = "/song".data then some .songH
    else if w = "/advice".data then some .adviceH
    else if w = "/mood".data then some .moodH
    else none
  | none => if text.data = [] then none else some .freeText

/-- End-to-end handling of one inbound text message: Router selects the
handler, the handler runs against the gateway `gw`.  `none` means no
registered handler fired. -/
def handleUpdate (gw : String → Nat → String) (text : String)
    (firstName : Option String) : Option HandlerOutput :=
  match route text with
  | some .startH => some start
  | some .helpH => some help_command
  | some .loveH => some (love_quote gw)
  | some .poetryH => some (poetry_quote gw)
  | some .songH => some (song_suggestion gw)
  | some .adviceH => some (daily_advice gw)
  | some .moodH => some mood_checkin
  | some .freeText => handle_message gw (some text) firstName
  | none => none

/-- The prompt template the Router associates with a command keyword: the
prompt of the selected handler's first gateway call (the identity-like
gateway `fun p _ => p` records nothing else). -/
def routerTemplate (text : String) : Option String :=
  match handleUpdate (fun p _ => p) text none with
  | some out =>
    match out.gatewayCalls with
    | (p, _) :: _ => some p
    | [] => none
  | none => none

/-- The generic reply of the top-level error handler (main.py lines 192-195). -/
def generic_error_message : String :=
  "🔧 Oops! Something went wrong on my end. Please try again in a moment. " ++
  "If the issue persists, try using /help to see available commands! 🤖"

/-- What `error_handler` (main.py lines 186-195) does: it always logs, and it
replies with the generic message exactly when the failed object is an
`Update` carrying an effective message. -/
structure ErrorHandled where
  logged : Bool
  reply : Option String
deriving DecidableEq

/-- The top-level error handler `error_handler` (main.py lines 186-195). -/
def error_handler (isUpdate : Bool) (hasEffectiveMessage : Bool) : ErrorHandled :=
  { logged := true
    reply := if isUpdate && hasEffectiveMessage then some generic_error_message
      else none }

/-- Result of dispatching one update through the framework. -/
inductive DispatchResult where
  | replied (r : String)
  | recovered (e : ErrorHandled)
  | crashed
deriving DecidableEq

/-- Modelled from the spec: the `python-telegram-bot` dispatch loop that runs a
handler and, per spec section 7(c), catches any exception the handler raises
and routes it to the registered `error_handler` instead of crashing the
process; that loop lives in the framework, not in `src/`.  The handler run is
abstracted as an `Except`: `.ok r` is a normal reply, `.error e` a raised
exception with message `e`. -/
def dispatchUpdate (handlerRun : Except String String)
    (isUpdate hasEffectiveMessage : Bool) : DispatchResult :=
  match handlerRun with
  | .ok r => .replied r
  | .error _ => .recovered (error_handler isUpdate hasEffectiveMessage)

/-- A concrete gateway oracle used to instantiate universally quantified
statements at a specific input. -/
def constGateway : String → Nat → String := fun _ _ => "ok"

/-- C1: handling the /love command passes the love-quote template to the
Completion Gateway at the default token cap, and the delivered message is
exactly the gateway's result wrapped in the fixed decorative format. -/
theorem love_command_wraps_gateway_result (gw : String → Nat → String)
    (firstName : Option String) :
    handleUpdate gw "/love" firstName =
      some { gatewayCalls := [(love_prompt, 150)],
             reply := "💕 **Today's Love Quote:**\n\n" ++ gw love_prompt 150 ++
               "\n\n✨ _Spread love wherever you go!_" } := rfl

/-- C2: whenever the underlying completion call raises (`.failure`) or
returns an empty choice list, the gateway's result is one of the pre-written
fallback messages of the program, and in particular never the empty string. -/
theorem gateway_failure_returns_fallback (clientOk : Bool) (result : APIResult)
    (randomIndex : Nat) (h : result = .failure ∨ result = .success []) :
    get_openai_response clientOk result randomIndex ∈ fallbackMessages ∧
    get_openai_response clientOk result randomIndex ≠ "" := by
  have hne : ∀ x ∈ fallbackMessages, x ≠ "" := by decide
  have hmem : get_openai_response clientOk result randomIndex ∈ fallbackMessages := by
    rcases h with h | h <;> subst h <;> cases clientOk
    · exact .head _
    · have hlt : randomIndex % error_messages.length < error_messages.length :=
        Nat.mod_lt _ (by decide)
      have h2 : get_openai_response true .failure randomIndex =
          error_messages.get ⟨randomIndex % error_messages.length, hlt⟩ := by
        show error_messages.getD (randomIndex % error_messages.length) "" = _
        rw [List.getD_eq_getElem?_getD, List.getElem?_eq_getElem hlt]
        rfl
      rw [h2]
      exact .tail _ (.tail _ (List.get_mem error_messages _ hlt))
    · exact .head _
    · exact .tail _ (.head _)
  exact ⟨hmem, hne _ hmem⟩

/-- C2 witness: the failure outcome at random index 0 with an initialised
client lands in the fallback set and is non-empty. -/
theorem gateway_failure_returns_fallback_w :
    get_openai_response true .failure 0 ∈ fallbackMessages ∧
    get_openai_response true .failure 0 ≠ "" :=
  gateway_failure_returns_fallback true .failure 0 (Or.inl rfl)

/-- C3: on a well-formed completion response (non-empty choice list) the
gateway returns exactly the first choice's content with surrounding
whitespace trimmed. -/
theorem gateway_success_returns_trimmed_first (c : String) (rest : List String)
    (randomIndex : Nat) :
    get_openai_response true (.success (c :: rest)) randomIndex = c.trim := rfl

/-- C4: for each of the four AI-backed command keywords the Router hands the
gateway the exact, character-for-character prompt template of the static
mapping. -/
theorem router_returns_exact_templates :
    routerTemplate "/love" = some "Generate a beautiful, inspiring love quote for today. Make it heartwarming, meaningful, and uplifting." ∧
    routerTemplate "/poetry" = some "Create a short, beautiful romantic quote or line of poetry. Keep it elegant, touching, and memorable." ∧
    routerTemplate "/song" = some "Suggest a great song (artist and title) with a brief reason why it's worth listening to. Make it uplifting, meaningful, or emotionally resonant." ∧
    routerTemplate "/advice" = some "Share a practical, positive daily life tip or advice. Make it actionable, encouraging, and genuinely helpful for personal growth." :=
  ⟨rfl, rfl, rfl, rfl⟩

/-- C5: the free-text prompt contains the sender's name and the original
message body verbatim as substrings. -/
theorem freetext_prompt_contains_name_and_message (user_name user_message : String) :
    user_name.data <:+: (handle_message_prompt user_name user_message).data ∧
    user_message.data <:+: (handle_message_prompt user_name user_message).data := by
  constructor
  · exact ⟨"As a friendly AI concierge, respond warmly to this message from ".data,
      (": '" ++ user_message ++ "'. " ++
        "Be helpful, encouraging, personable, and provide practical value when possible. " ++
        "If they're asking for help or advice, provide actionable suggestions. " ++
        "If they're sharing something, respond empathetically and engagingly.").data,
      by simp only [handle_message_prompt, String.data_append, List.append_assoc]⟩
  · exact ⟨("As a friendly AI concierge, respond warmly to this message from " ++
        user_name ++ ": '").data,
      ("'. " ++
        "Be helpful, encouraging, personable, and provide practical value when possible. " ++
        "If they're asking for help or advice, provide actionable suggestions. " ++
        "If they're sharing something, respond empathetically and engagingly.").data,
      by simp only [handle_message_prompt, String.data_append, List.append_assoc]⟩

/-- C6: if either required secret is absent, startup evaluates to a raised
configuration error (one of the two `ValueError` messages), never a silent
success. -/
theorem missing_secret_fails_startup (botToken openaiApiKey : Option String)
    (h : botToken = none ∨ openaiApiKey = none) :
    validateEnv botToken openaiApiKey = .error "BOT_TOKEN is required" ∨
    validateEnv botToken openaiApiKey = .error "OPENAI_API_KEY is required" := by
  rcases h with h | h
  · subst h; left; rfl
  · subst h
    cases hb : envTruthy botToken
    · left
      unfold validateEnv
      rw [hb]
      rfl
    · right
      unfold validateEnv
      rw [hb]
      rfl

/-- C6 witness: with the bot token absent and the API key present, startup
fails with one of the two configuration errors. -/
theorem missing_secret_fails_startup_w :
    validateEnv none (some "sk-test") = .error "BOT_TOKEN is required" ∨
    validateEnv none (some "sk-test") = .error "OPENAI_API_KEY is required" :=
  missing_secret_fails_startup none (some "sk-test") (Or.inl rfl)

/-- C7 counterexample: the /mood message is handled and answered, yet its
handling performs zero Completion Gateway calls, refuting the claim that
every inbound message's handling results in a gateway invocation (the same
holds for /start and /help). -/
theorem mood_handled_without_gateway_call :
    handleUpdate constGateway "/mood" (some "Alice") =
      some { gatewayCalls := [], reply := mood_message } := rfl

/-- C7 amended: every handled inbound message either makes exactly one
Completion Gateway call (the AI-backed commands and free text) or makes none
and was routed to one of the static handlers /start, /help, /mood. -/
theorem handled_message_control_flow (gw : String → Nat → String) (text : String)
    (firstName : Option String) (out : HandlerOutput)
    (h : handleUpdate gw text firstName = some out) :
    out.gatewayCalls.length = 1 ∨
    (out.gatewayCalls = [] ∧
      (route text = some .startH ∨ route text = some .helpH ∨
        route text = some .moodH)) := by
  unfold handleUpdate at h
  cases hr : route text <;> rw [hr] at h
  · exact Option.noConfusion h
  case some hd =>
    cases hd
    case startH =>
      have h2 : some start = some out := h
      injection h2 with h3
      subst h3
      exact Or.inr ⟨rfl, Or.inl rfl⟩
    case helpH =>
      have h2 : some help_command = some out := h
      injection h2 with h3
      subst h3
      exact Or.inr ⟨rfl, Or.inr (Or.inl rfl)⟩
    case loveH =>
      have h2 : some (love_quote gw) = some out := h
      injection h2 with h3
      subst h3
      exact Or.inl rfl
    case poetryH =>
      have h2 : some (poetry_quote gw) = some out := h
      injection h2 with h3
      subst h3
      exact Or.inl rfl
    case songH =>
      have h2 : some (song_suggestion gw) = some out := h
      injection h2 with h3
      subst h3
      exact Or.inl rfl
    case adviceH =>
      have h2 : some (daily_advice gw) = some out := h
      injection h2 with h3
      subst h3
      exact Or.inl rfl
    case moodH =>
      have h2 : some mood_checkin = some out := h
      injection h2 with h3
      subst h3
      exact Or.inr ⟨rfl, Or.inr (Or.inr rfl)⟩
    case freeText =>
      have h2 : handle_message gw (some text) firstName = some out := h
      simp only [handle_message] at h2
      by_cases ht : text = ""
      · rw [if_pos ht] at h2
        exact Option.noConfusion h2
      · rw [if_neg ht] at h2
        injection h2 with h3
        subst h3
        exact Or.inl rfl

/-- C7 amended witness: the handled /love message makes exactly one gateway
call. -/
theorem handled_message_control_flow_w :
    (love_quote constGateway).gatewayCalls.length = 1 ∨
    ((love_quote constGateway).gatewayCalls = [] ∧
      (route "/love" = some .startH ∨ route "/love" = some .helpH ∨
        route "/love" = some .moodH)) :=
  handled_message_control_flow constGateway "/love" none (love_quote constGateway) rfl

/-- C8: the outgoing completion request's model, temperature, top-p,
penalties and timeout are the same fixed constants for every prompt and
token-limit; only the user message and the max-token cap vary. -/
theorem request_sampling_params_fixed (p₁ p₂ : String) (n₁ n₂ : Nat) :
    (buildRequest p₁ n₁).model = (buildRequest p₂ n₂).model ∧
    (buildRequest p₁ n₁).temperature = (buildRequest p₂ n₂).temperature ∧
    (buildRequest p₁ n₁).topP = (buildRequest p₂ n₂).topP ∧
    (buildRequest p₁ n₁).frequencyPenalty = (buildRequest p₂ n₂).frequencyPenalty ∧
    (buildRequest p₁ n₁).presencePenalty = (buildRequest p₂ n₂).presencePenalty ∧
    (buildRequest p₁ n₁).timeoutSeconds = (buildRequest p₂ n₂).timeoutSeconds ∧
    (buildRequest p₁ n₁).temperature = 7 / 10 ∧
    (buildRequest p₁ n₁).topP = 1 ∧
    (buildRequest p₁ n₁).frequencyPenalty = 0 ∧
    (buildRequest p₁ n₁).presencePenalty = 0 ∧
    (buildRequest p₁ n₁).timeoutSeconds = 30 ∧
    (buildRequest p₁ n₁).messages = [⟨"system", SYSTEM_PROMPT⟩, ⟨"user", p₁⟩] ∧
    (buildRequest p₁ n₁).maxTokens = n₁ :=
  ⟨rfl, rfl, rfl, rfl, rfl, rfl, rfl, rfl, rfl, rfl, rfl, rfl, rfl⟩

/-- C9: an exception raised while a handler processes an update (an `Update`
carrying a message, since every registered handler fires on messages) is
dispatched to the top-level error handler, which logs it and answers with the
fixed generic message; the dispatch never crashes the process. -/
theorem handler_exception_recovered (e : String) :
    dispatchUpdate (.error e) true true =
      .recovered { logged := true, reply := some generic_error_message } ∧
    dispatchUpdate (.error e) true true ≠ .crashed :=
  ⟨rfl, fun hc => DispatchResult.noConfusion hc⟩

/-- C10: a free-text message whose sender has a missing or empty first name
gets the literal name "friend" in the constructed prompt, and the handler
still produces a reply. -/
theorem missing_first_name_uses_friend (gw : String → Nat → String) (t : String)
    (firstName : Option String) (ht : t ≠ "")
    (hf : firstName = none ∨ firstName = some "") :
    handle_message gw (some t) firstName =
      some { gatewayCalls := [(handle_message_prompt "friend" t, 200)],
             reply := "🤖 " ++ gw (handle_message_prompt "friend" t) 200 } := by
  have hu : userName firstName = "friend" := by
    rcases hf with h | h <;> subst h <;> rfl
  simp [handle_message, ht, hu]

/-- C10 witness: the message "hello" from a sender without a first name is
answered using the "friend" prompt. -/
theorem missing_first_name_uses_friend_w :
    handle_message constGateway (some "hello") none =
      some { gatewayCalls := [(handle_message_prompt "friend" "hello", 200)],
             reply := "🤖 " ++ constGateway (handle_message_prompt "friend" "hello") 200 } :=
  missing_first_name_uses_friend constGateway "hello" none (by decide) (Or.inl rfl)

end Bot
